import Mathlib

/-!
Shallow embedding of `core/services/offchainreporting/oracle.go`:
the job spawner delegate (`ToDBRow`, `FromDBRow`, `ServicesForSpec`)
and the pipeline-backed `dataSource.Observe`.

External collaborators (chain client, libp2p peer transport, the libocr
protocol engine, the pipeline engine) are modelled as black-box function
fields of the delegate / runner records.  Repository code that is not in
the excerpt (the orm.Config resolution helpers, the OracleSpec record,
utils.ToDecimal) is modelled from the spec, marked as such below.
-/

namespace OffchainReporting

/-- Resolved local protocol configuration handed to the protocol engine,
mirroring `ocrtypes.LocalConfig` as populated at oracle.go lines 170-178.
Durations are modelled as Nat nanosecond counts. -/
structure LocalConfig where
  blockchainTimeout : Nat
  contractConfigConfirmations : Nat
  contractConfigTrackerPollInterval : Nat
  contractConfigTrackerSubscribeInterval : Nat
  contractTransmitterTransmitTimeout : Nat
  databaseTimeout : Nat
  dataSourceTimeout : Nat
  deriving DecidableEq, Repr

/-- Modelled from the spec: the typed job record (spec section 3 JobSpec).
The per-job timing overrides are exactly the five the data model lists
(blockchain timeout, confirmation count, poll/subscribe intervals,
observation timeout); `none` means the job supplied no override.  An empty
`monitoringEndpoint` string means unset, per the spec note that empty and
absent are equivalent. -/
structure OracleSpec where
  specID : Int
  jobID : Int
  contractAddress : String
  p2pPeerID : Option String
  p2pBootstrapPeers : Option (List String)
  encryptedOCRKeyBundleID : Option String
  transmitterAddress : Option String
  monitoringEndpoint : String
  blockchainTimeout : Option Nat
  contractConfigConfirmations : Option Nat
  contractConfigTrackerPollInterval : Option Nat
  contractConfigTrackerSubscribeInterval : Option Nat
  observationTimeout : Option Nat
  isBootstrapPeer : Bool
  schemaVersion : Nat
  maxTaskDuration : Nat
  deriving DecidableEq, Repr

/-- Fatal orchestration errors of `ServicesForSpec`, one constructor per
distinct `return nil, err` site in oracle.go lines 98-241. -/
inductive OrchError where
  | notOracleSpec (typeName : String)
  | filtererFailed (e : String)
  | callerFailed (e : String)
  | trackerFailed (e : String)
  | noPeerID
  | peerMissing
  | peerNotStarted
  | peerIDMismatch (given expected : String)
  | invalidMonitoringURL (e url : String)
  | configSanityFailed (e : String)
  | noBootstrapPeers
  | noKeyBundleID
  | keyNotFound (kb : Option String)
  | abiFailed (e : String)
  | noTransmitterAddress
  | bootstrapNodeFailed (e : String)
  | oracleFailed (e : String)
  deriving DecidableEq, Repr

/-- Go error message of each fatal error, following the literal strings in
oracle.go (quote characters of the originals are omitted). -/
def OrchError.message : OrchError → String
  | .notOracleSpec t =>
      "offchainreporting.jobSpawnerDelegate expects an *offchainreporting.OracleSpec, got " ++ t
  | .filtererFailed e => "could not instantiate NewOffchainAggregatorFilterer: " ++ e
  | .callerFailed e => "could not instantiate NewOffchainAggregatorCaller: " ++ e
  | .trackerFailed e => "error calling NewOCRContract: " ++ e
  | .noPeerID => "no p2p peer ID set"
  | .peerMissing => "cannot setup OCR job service, libp2p peer was missing"
  | .peerNotStarted =>
      "peerWrapper is not started. OCR jobs require a started and running peer. Did you forget to specify P2P_LISTEN_PORT?"
  | .peerIDMismatch given expected =>
      "given peer with ID " ++ given ++ " does not match OCR configured peer with ID: " ++ expected
  | .invalidMonitoringURL e url => "invalid monitoring url: " ++ url ++ ": " ++ e
  | .configSanityFailed e => e
  | .noBootstrapPeers => "need at least one bootstrap peer"
  | .noKeyBundleID => "no OCR key bundle ID set"
  | .keyNotFound kb => "OCR key " ++ (kb.getD "") ++ " does not exist"
  | .abiFailed e => "could not get contract ABI JSON: " ++ e
  | .noTransmitterAddress => "no transmitter address set"
  | .bootstrapNodeFailed e => "error calling NewBootstrapNode: " ++ e
  | .oracleFailed e => "error calling NewOracle: " ++ e

/-- Modelled from the spec: node-wide defaults held by `orm.Config`
(spec section 4.2: node defaults merged with job overrides). -/
structure NodeConfig where
  p2pPeerIDDefault : Option String
  p2pBootstrapPeersDefault : List String
  ocrKeyBundleIDDefault : Option String
  ocrTransmitterAddressDefault : Option String
  ocrMonitoringEndpointDefault : String
  explorerURL : Option String
  ocrBlockchainTimeoutDefault : Nat
  ocrContractConfirmationsDefault : Nat
  ocrContractPollIntervalDefault : Nat
  ocrContractSubscribeIntervalDefault : Nat
  ocrContractTransmitterTransmitTimeoutDefault : Nat
  ocrDatabaseTimeoutDefault : Nat
  ocrObservationTimeoutDefault : Nat
  ethGasLimitDefault : Nat

/-- Modelled from the spec: config resolution of the peer identity; the
job override wins, else the node default, else a fatal error (the spec
requires a configured peer identity). -/
def NodeConfig.p2pPeerID (c : NodeConfig) (override : Option String) :
    Except OrchError String :=
  match override with
  | some p => .ok p
  | none =>
    match c.p2pPeerIDDefault with
    | some p => .ok p
    | none => .error .noPeerID

/-- Modelled from the spec: the resolved bootstrap peer list is the job
override when supplied, else the node-wide default list. -/
def NodeConfig.p2pBootstrapPeers (c : NodeConfig) (override : Option (List String)) :
    List String :=
  match override with
  | some ps => ps
  | none => c.p2pBootstrapPeersDefault

/-- Modelled from the spec: key bundle identifier resolution. -/
def NodeConfig.ocrKeyBundleID (c : NodeConfig) (override : Option String) :
    Except OrchError String :=
  match override with
  | some kb => .ok kb
  | none =>
    match c.ocrKeyBundleIDDefault with
    | some kb => .ok kb
    | none => .error .noKeyBundleID

/-- Modelled from the spec: transmitter address resolution. -/
def NodeConfig.ocrTransmitterAddress (c : NodeConfig) (override : Option String) :
    Except OrchError String :=
  match override with
  | some ta => .ok ta
  | none =>
    match c.ocrTransmitterAddressDefault with
    | some ta => .ok ta
    | none => .error .noTransmitterAddress

/-- Modelled from the spec: the per-job monitoring endpoint resolved
against node config; the job value wins when non-empty. -/
def NodeConfig.ocrMonitoringEndpoint (c : NodeConfig) (override : String) : String :=
  if override ≠ "" then override else c.ocrMonitoringEndpointDefault

/-- Modelled from the spec: tunable resolution, job override verbatim when
supplied, else the node-wide default (spec section 4.2). -/
def NodeConfig.ocrBlockchainTimeout (c : NodeConfig) (override : Option Nat) : Nat :=
  override.getD c.ocrBlockchainTimeoutDefault

/-- Modelled from the spec: see `ocrBlockchainTimeout`. -/
def NodeConfig.ocrContractConfirmations (c : NodeConfig) (override : Option Nat) : Nat :=
  override.getD c.ocrContractConfirmationsDefault

/-- Modelled from the spec: see `ocrBlockchainTimeout`. -/
def NodeConfig.ocrContractPollInterval (c : NodeConfig) (override : Option Nat) : Nat :=
  override.getD c.ocrContractPollIntervalDefault

/-- Modelled from the spec: see `ocrBlockchainTimeout`. -/
def NodeConfig.ocrContractSubscribeInterval (c : NodeConfig) (override : Option Nat) : Nat :=
  override.getD c.ocrContractSubscribeIntervalDefault

/-- Modelled from the spec: the transmit-timeout getter; the call site at
oracle.go line 175 passes no job value, so it only ever yields the
node-wide default. -/
def NodeConfig.ocrContractTransmitterTransmitTimeout (c : NodeConfig) : Nat :=
  c.ocrContractTransmitterTransmitTimeoutDefault

/-- Modelled from the spec: the database-timeout getter; the call site at
oracle.go line 176 passes no job value, so it only ever yields the
node-wide default. -/
def NodeConfig.ocrDatabaseTimeout (c : NodeConfig) : Nat :=
  c.ocrDatabaseTimeoutDefault

/-- Modelled from the spec: see `ocrBlockchainTimeout`. -/
def NodeConfig.ocrObservationTimeout (c : NodeConfig) (override : Option Nat) : Nat :=
  override.getD c.ocrObservationTimeoutDefault

/-- The `ocrtypes.LocalConfig` literal built at oracle.go lines 170-178:
five tunables pass the job spec field to the resolver, the transmit and
database timeouts consult node config alone. -/
def mkLocalConfig (c : NodeConfig) (s : OracleSpec) : LocalConfig :=
  { blockchainTimeout := c.ocrBlockchainTimeout s.blockchainTimeout
    contractConfigConfirmations := c.ocrContractConfirmations s.contractConfigConfirmations
    contractConfigTrackerPollInterval :=
      c.ocrContractPollInterval s.contractConfigTrackerPollInterval
    contractConfigTrackerSubscribeInterval :=
      c.ocrContractSubscribeInterval s.contractConfigTrackerSubscribeInterval
    contractTransmitterTransmitTimeout := c.ocrContractTransmitterTransmitTimeout
    databaseTimeout := c.ocrDatabaseTimeout
    dataSourceTimeout := c.ocrObservationTimeout s.observationTimeout }

/-- State of the process-wide libp2p peer wrapper as this layer observes
it: its own peer identity and whether it was started. -/
structure PeerWrapper where
  peerID : String
  isStarted : Bool
  deriving DecidableEq, Repr

/-- Arguments wired into `ocr.NewBootstrapNode` (oracle.go lines 185-193). -/
structure BootstrapNodeArgs where
  bootstrapperFactoryPeer : String
  bootstrappers : List String
  contractConfigTracker : String
  databaseSpecID : Int
  localConfig : LocalConfig
  monitoringEndpoint : Option String
  deriving DecidableEq, Repr

/-- The contract transmitter built at oracle.go lines 219-220. -/
structure TransmitterInfo where
  contractAddress : String
  transmitterAddress : String
  gasLimit : Nat
  deriving DecidableEq, Repr

/-- Arguments wired into `ocr.NewOracle` (oracle.go lines 222-233). -/
structure OracleArgs where
  databaseSpecID : Int
  datasourceJobID : Int
  localConfig : LocalConfig
  contractTransmitter : TransmitterInfo
  contractConfigTracker : String
  privateKeys : String
  binaryNetworkEndpointFactoryPeer : String
  bootstrappers : List String
  monitoringEndpoint : Option String
  deriving DecidableEq, Repr

/-- A startable background service returned by `ServicesForSpec`: the
explorer/telemetry client, a bootstrap protocol-engine instance, or a full
protocol-engine oracle instance. -/
inductive Service where
  | explorerClient (url : String)
  | bootstrapNode (args : BootstrapNodeArgs)
  | oracle (args : OracleArgs)
  deriving DecidableEq, Repr

/-- A `job.Spec` value handed to the delegate: a `*OracleSpec` (the shape
`ServicesForSpec` accepts), a value `OracleSpec` (the shape `ToDBRow`
accepts), or some unrelated spec type, carried by its Go type name. -/
inductive JobSpec where
  | oracleVal (s : OracleSpec)
  | oraclePtr (s : OracleSpec)
  | other (typeName : String)
  deriving DecidableEq, Repr

/-- Go `%T` rendering of a `job.Spec` value. -/
def JobSpec.goTypeName : JobSpec → String
  | .oracleVal _ => "offchainreporting.OracleSpec"
  | .oraclePtr _ => "*offchainreporting.OracleSpec"
  | .other t => t

/-- The database row type `models.JobSpecV2` as far as `ToDBRow` and
`FromDBRow` populate it. -/
structure JobSpecV2 where
  offchainreportingOracleSpec : Option OracleSpec
  type : String
  schemaVersion : Nat
  maxTaskDuration : Nat
  deriving DecidableEq, Repr

/-- Result of `ToDBRow`, which panics on a type mismatch. -/
inductive ToDBRowResult where
  | panicked (msg : String)
  | row (r : JobSpecV2)
  deriving DecidableEq, Repr

/-- The job spawner delegate together with the black-box behaviour of its
external collaborators: contract adapter constructors over the chain
client, the stdlib URL parser, the libocr sanity check and protocol-engine
constructors, and the key store lookup.  `none` from a constructor field
means the construction succeeds. -/
structure Delegate where
  config : NodeConfig
  keyStore : List (String × String)
  peerWrapper : Option PeerWrapper
  newFilterer : String → Option String
  newCaller : String → Option String
  newConfigTracker : String → Option String
  parseURL : String → Except String String
  sanityCheckLocalConfig : LocalConfig → Option String
  abiJSON : Option String
  newBootstrapNode : BootstrapNodeArgs → Option String
  newOracle : OracleArgs → Option String

/-- `KeyStore.DecryptedOCRKey`: look the resolved bundle ID up in the key
store. -/
def Delegate.decryptedOCRKey (d : Delegate) (kb : String) : Option String :=
  d.keyStore.lookup kb

/-- `jobSpawnerDelegate.ToDBRow` (oracle.go lines 75-86): asserts the
value type `OracleSpec` and panics on anything else. -/
def Delegate.toDBRow (_d : Delegate) (spec : JobSpec) : ToDBRowResult :=
  match spec with
  | .oracleVal s =>
      .row { offchainreportingOracleSpec := some s
             type := "offchainreporting"
             schemaVersion := s.schemaVersion
             maxTaskDuration := s.maxTaskDuration }
  | _ => .panicked ("expected an offchainreporting.OracleSpec, got " ++ spec.goTypeName)

/-- `jobSpawnerDelegate.FromDBRow` (oracle.go lines 88-96). -/
def Delegate.fromDBRow (_d : Delegate) (row : JobSpecV2) : Option OracleSpec :=
  match row.offchainreportingOracleSpec with
  | none => none
  | some s => some s

/-- The monitoring-endpoint resolution step of `ServicesForSpec`
(oracle.go lines 151-159): the per-job endpoint resolved against node
config wins when non-empty (failing on an unparsable URL), else the
node-wide explorer URL, else no endpoint. -/
def Delegate.resolveMonitoringURL (d : Delegate) (s : OracleSpec) :
    Except OrchError (Option String) :=
  let me := d.config.ocrMonitoringEndpoint s.monitoringEndpoint
  if me ≠ "" then
    match d.parseURL me with
    | .error e => .error (.invalidMonitoringURL e me)
    | .ok u => .ok (some u)
  else
    .ok d.config.explorerURL

/-- `jobSpawnerDelegate.ServicesForSpec` (oracle.go lines 98-241),
returning the `(services, err)` pair exactly as the Go function does:
every error site returns `nil` services. -/
def Delegate.servicesForSpec (d : Delegate) (spec : JobSpec) :
    List Service × Option OrchError :=
  match spec with
  | .oraclePtr s =>
    match d.newFilterer s.contractAddress with
    | some e => ([], some (.filtererFailed e))
    | none =>
    match d.newCaller s.contractAddress with
    | some e => ([], some (.callerFailed e))
    | none =>
    match d.newConfigTracker s.contractAddress with
    | some e => ([], some (.trackerFailed e))
    | none =>
    match d.config.p2pPeerID s.p2pPeerID with
    | .error e => ([], some e)
    | .ok peerID =>
    match d.peerWrapper with
    | none => ([], some .peerMissing)
    | some w =>
    if !w.isStarted then ([], some .peerNotStarted)
    else if w.peerID ≠ peerID then ([], some (.peerIDMismatch w.peerID peerID))
    else
    let bootstrapPeers := d.config.p2pBootstrapPeers s.p2pBootstrapPeers
    match d.resolveMonitoringURL s with
    | .error e => ([], some e)
    | .ok endpointURL =>
    let services : List Service :=
      match endpointURL with
      | some u => [.explorerClient u]
      | none => []
    let lc := mkLocalConfig d.config s
    match d.sanityCheckLocalConfig lc with
    | some e => ([], some (.configSanityFailed e))
    | none =>
    if s.isBootstrapPeer then
      let args : BootstrapNodeArgs :=
        { bootstrapperFactoryPeer := w.peerID
          bootstrappers := bootstrapPeers
          contractConfigTracker := s.contractAddress
          databaseSpecID := s.specID
          localConfig := lc
          monitoringEndpoint := endpointURL }
      match d.newBootstrapNode args with
      | some e => ([], some (.bootstrapNodeFailed e))
      | none => (services ++ [.bootstrapNode args], none)
    else
      if bootstrapPeers.length < 1 then ([], some .noBootstrapPeers)
      else
      match d.config.ocrKeyBundleID s.encryptedOCRKeyBundleID with
      | .error e => ([], some e)
      | .ok kb =>
      match d.decryptedOCRKey kb with
      | none => ([], some (.keyNotFound s.encryptedOCRKeyBundleID))
      | some ocrkey =>
      match d.abiJSON with
      | some e => ([], some (.abiFailed e))
      | none =>
      match d.config.ocrTransmitterAddress s.transmitterAddress with
      | .error e => ([], some e)
      | .ok ta =>
      let contractTransmitter : TransmitterInfo :=
        { contractAddress := s.contractAddress
          transmitterAddress := ta
          gasLimit := d.config.ethGasLimitDefault }
      let args : OracleArgs :=
        { databaseSpecID := s.specID
          datasourceJobID := s.jobID
          localConfig := lc
          contractTransmitter := contractTransmitter
          contractConfigTracker := s.contractAddress
          privateKeys := ocrkey
          binaryNetworkEndpointFactoryPeer := w.peerID
          bootstrappers := bootstrapPeers
          monitoringEndpoint := endpointURL }
      match d.newOracle args with
      | some e => ([], some (.oracleFailed e))
      | none => (services ++ [.oracle args], none)
  | sp => ([], some (.notOracleSpec sp.goTypeName))

/-- A fixed-precision decimal `mantissa * 10 ^ (-exp)`, standing in for
the decimal type used by `utils.ToDecimal`. -/
structure Decimal where
  mantissa : Int
  exp : Nat
  deriving DecidableEq, Repr

/-- The integer component of a decimal, truncated toward zero, as
`decimal.BigInt` produces it. -/
def Decimal.bigInt (d : Decimal) : Int :=
  d.mantissa.tdiv ((10 : Int) ^ d.exp)

/-- Accumulate a digit list into a Nat. -/
def digitsToNat : List Char → Nat → Nat
  | [], acc => acc
  | c :: cs, acc => digitsToNat cs (acc * 10 + (c.toNat - 48))

/-- All characters are decimal digits. -/
def allDigits : List Char → Bool
  | [] => true
  | c :: cs => c.isDigit && allDigits cs

/-- Modelled from the spec: parsing a numeric string into a decimal
(optional sign, digits, optional fractional digits); any other string
cannot be coerced to a number. -/
def parseDecimalString (s : String) : Option Decimal :=
  let cs := s.data
  let signed : Bool × List Char :=
    match cs with
    | '-' :: rest => (true, rest)
    | '+' :: rest => (false, rest)
    | _ => (false, cs)
  let neg := signed.1
  let body := signed.2
  let ip := body.takeWhile (fun c => c ≠ '.')
  let rest := body.dropWhile (fun c => c ≠ '.')
  let mkMantissa : List Char → Int := fun ds =>
    if neg then -(digitsToNat ds 0 : Int) else (digitsToNat ds 0 : Int)
  match rest with
  | [] =>
      if ip ≠ [] && allDigits ip then some { mantissa := mkMantissa ip, exp := 0 }
      else none
  | _ :: fp =>
      if ip ≠ [] && fp ≠ [] && allDigits ip && allDigits fp then
        some { mantissa := mkMantissa (ip ++ fp), exp := fp.length }
      else none

/-- A runtime value produced by a pipeline task. -/
inductive Value where
  | str (s : String)
  | int (n : Int)
  | decimal (d : Decimal)
  deriving DecidableEq, Repr

/-- Modelled from the spec: `utils.ToDecimal` converts the result value to
a fixed-precision decimal; a value that cannot be coerced to a number
yields no decimal. -/
def toDecimal : Value → Option Decimal
  | .str s => parseDecimalString s
  | .int n => some { mantissa := n, exp := 0 }
  | .decimal d => some d

/-- One entry of a pipeline run result set (`pipeline.Result`). -/
structure RunResult where
  value : Value
  error : Option String
  deriving DecidableEq, Repr

/-- Black-box behaviour of the external pipeline engine for one `Observe`
call: `CreateRun`, `AwaitRun` (whose error also covers context
cancellation and timeout), and `ResultsForRun`. -/
structure PipelineRunner where
  createRun : Except String Int
  awaitRun : Int → Option String
  resultsForRun : Int → Except String (List RunResult)

/-- Per-round observation failures of `dataSource.Observe`, one
constructor per `return nil, err` site at oracle.go lines 253-280. -/
inductive ObserveError where
  | createRunFailed (e : String)
  | awaitRunFailed (e : String)
  | pipelineError (e : String)
  | topology (jobID runID : Int)
  | taskErrored (e : String)
  | coercion (v : Value)
  deriving DecidableEq, Repr

/-- The protocol observation is an arbitrary-precision integer. -/
abbrev Observation := Int

/-- The `dataSource` record (oracle.go lines 246-249). -/
structure DataSource where
  pipelineRunner : PipelineRunner
  jobID : Int

/-- `dataSource.Observe` (oracle.go lines 253-280): create a run, await
it, fetch its results, require exactly one result, propagate its error,
else coerce its value to a decimal and take the big-integer component. -/
def DataSource.observe (ds : DataSource) : Except ObserveError Observation :=
  match ds.pipelineRunner.createRun with
  | .error e => .error (.createRunFailed e)
  | .ok runID =>
    match ds.pipelineRunner.awaitRun runID with
    | some e => .error (.awaitRunFailed e)
    | none =>
      match ds.pipelineRunner.resultsForRun runID with
      | .error e => .error (.pipelineError e)
      | .ok results =>
        if results.length ≠ 1 then .error (.topology ds.jobID runID)
        else
          match results with
          | [res] =>
            match res.error with
            | some e => .error (.taskErrored e)
            | none =>
              match toDecimal res.value with
              | none => .error (.coercion res.value)
              | some dec => .ok dec.bigInt
          | _ => .error (.topology ds.jobID runID)

/-! ### Concrete fixtures used to exercise the model -/

/-- A node configuration with every default populated. -/
def exConfig : NodeConfig :=
  { p2pPeerIDDefault := some "peerA"
    p2pBootstrapPeersDefault := ["bootDefault"]
    ocrKeyBundleIDDefault := some "kb0"
    ocrTransmitterAddressDefault := some "0xdefaultTA"
    ocrMonitoringEndpointDefault := ""
    explorerURL := none
    ocrBlockchainTimeoutDefault := 10
    ocrContractConfirmationsDefault := 3
    ocrContractPollIntervalDefault := 20
    ocrContractSubscribeIntervalDefault := 30
    ocrContractTransmitterTransmitTimeoutDefault := 40
    ocrDatabaseTimeoutDefault := 50
    ocrObservationTimeoutDefault := 60
    ethGasLimitDefault := 500000 }

/-- A full-participant spec supplying every override. -/
def exSpecFull : OracleSpec :=
  { specID := 1
    jobID := 2
    contractAddress := "0xabc"
    p2pPeerID := some "peerA"
    p2pBootstrapPeers := some ["bootA"]
    encryptedOCRKeyBundleID := some "kb1"
    transmitterAddress := some "0xtx"
    monitoringEndpoint := ""
    blockchainTimeout := some 11
    contractConfigConfirmations := some 4
    contractConfigTrackerPollInterval := some 21
    contractConfigTrackerSubscribeInterval := some 31
    observationTimeout := some 61
    isBootstrapPeer := false
    schemaVersion := 1
    maxTaskDuration := 0 }

/-- A full-participant spec supplying no timing overrides. -/
def exSpecNoOverrides : OracleSpec :=
  { exSpecFull with
    blockchainTimeout := none
    contractConfigConfirmations := none
    contractConfigTrackerPollInterval := none
    contractConfigTrackerSubscribeInterval := none
    observationTimeout := none }

/-- A bootstrap-only spec whose resolved bootstrap peer list is empty. -/
def exSpecBootstrapEmpty : OracleSpec :=
  { exSpecFull with
    isBootstrapPeer := true
    p2pBootstrapPeers := some [] }

/-- A full-participant spec whose resolved bootstrap peer list is empty. -/
def exSpecNoPeers : OracleSpec :=
  { exSpecFull with p2pBootstrapPeers := some [] }

/-- A delegate whose external collaborators all succeed. -/
def exDelegate : Delegate :=
  { config := exConfig
    keyStore := [("kb1", "decryptedKey1")]
    peerWrapper := some { peerID := "peerA", isStarted := true }
    newFilterer := fun _ => none
    newCaller := fun _ => none
    newConfigTracker := fun _ => none
    parseURL := fun u => .ok u
    sanityCheckLocalConfig := fun _ => none
    abiJSON := none
    newBootstrapNode := fun _ => none
    newOracle := fun _ => none }

/-- A pipeline runner terminating with the single numeric result "3". -/
def exRunner : PipelineRunner :=
  { createRun := .ok 42
    awaitRun := fun _ => none
    resultsForRun := fun _ => .ok [{ value := .str "3", error := none }] }

/-- A pipeline runner terminating with two results. -/
def exRunnerTwo : PipelineRunner :=
  { createRun := .ok 42
    awaitRun := fun _ => none
    resultsForRun := fun _ =>
      .ok [{ value := .str "3", error := none }, { value := .str "4", error := none }] }

/-- A pipeline runner terminating with a single non-numeric result. -/
def exRunnerBad : PipelineRunner :=
  { createRun := .ok 42
    awaitRun := fun _ => none
    resultsForRun := fun _ => .ok [{ value := .str "abc", error := none }] }

/-- A delegate whose peer wrapper is absent. -/
def exDelegateNoPeer : Delegate :=
  { exDelegate with peerWrapper := none }

/-- A delegate whose peer wrapper is present but not started. -/
def exDelegateNotStarted : Delegate :=
  { exDelegate with peerWrapper := some { peerID := "peerA", isStarted := false } }

/-- A delegate whose peer wrapper carries a different peer identity. -/
def exDelegateWrongPeer : Delegate :=
  { exDelegate with peerWrapper := some { peerID := "peerB", isStarted := true } }

/-- A full-participant spec with a per-job monitoring endpoint. -/
def exSpecMon : OracleSpec :=
  { exSpecFull with monitoringEndpoint := "http://mon.example" }

/-- A full-participant spec naming a key bundle absent from the store. -/
def exSpecBadKey : OracleSpec :=
  { exSpecFull with encryptedOCRKeyBundleID := some "kb9" }

/-- A full-participant spec with no transmitter address. -/
def exSpecNoTA : OracleSpec :=
  { exSpecFull with transmitterAddress := none }

/-- A delegate whose node config has no default transmitter address. -/
def exDelegateNoTA : Delegate :=
  { exDelegate with config := { exConfig with ocrTransmitterAddressDefault := none } }

/-! ### Claims -/

/-- C1: for each of the seven LocalConfig tunables, a job-supplied
override is used verbatim and otherwise the node-wide default applies.
The job spec carries override fields for five tunables (spec section 3);
the transmit timeout and database timeout have no job override field, so
for them the no-override case is the only one and the node default is
always used. -/
theorem localConfig_tunable_overrides (c : NodeConfig) (s : OracleSpec) :
    ((∀ v, s.blockchainTimeout = some v → (mkLocalConfig c s).blockchainTimeout = v) ∧
      (s.blockchainTimeout = none →
        (mkLocalConfig c s).blockchainTimeout = c.ocrBlockchainTimeoutDefault)) ∧
    ((∀ v, s.contractConfigConfirmations = some v →
        (mkLocalConfig c s).contractConfigConfirmations = v) ∧
      (s.contractConfigConfirmations = none →
        (mkLocalConfig c s).contractConfigConfirmations = c.ocrContractConfirmationsDefault)) ∧
    ((∀ v, s.contractConfigTrackerPollInterval = some v →
        (mkLocalConfig c s).contractConfigTrackerPollInterval = v) ∧
      (s.contractConfigTrackerPollInterval = none →
        (mkLocalConfig c s).contractConfigTrackerPollInterval =
          c.ocrContractPollIntervalDefault)) ∧
    ((∀ v, s.contractConfigTrackerSubscribeInterval = some v →
        (mkLocalConfig c s).contractConfigTrackerSubscribeInterval = v) ∧
      (s.contractConfigTrackerSubscribeInterval = none →
        (mkLocalConfig c s).contractConfigTrackerSubscribeInterval =
          c.ocrContractSubscribeIntervalDefault)) ∧
    ((∀ v, s.observationTimeout = some v → (mkLocalConfig c s).dataSourceTimeout = v) ∧
      (s.observationTimeout = none →
        (mkLocalConfig c s).dataSourceTimeout = c.ocrObservationTimeoutDefault)) ∧
    (mkLocalConfig c s).contractTransmitterTransmitTimeout =
      c.ocrContractTransmitterTransmitTimeoutDefault ∧
    (mkLocalConfig c s).databaseTimeout = c.ocrDatabaseTimeoutDefault := by
  refine ⟨⟨fun v hv => ?_, fun hv => ?_⟩, ⟨fun v hv => ?_, fun hv => ?_⟩,
    ⟨fun v hv => ?_, fun hv => ?_⟩, ⟨fun v hv => ?_, fun hv => ?_⟩,
    ⟨fun v hv => ?_, fun hv => ?_⟩, rfl, rfl⟩ <;>
  simp [mkLocalConfig, NodeConfig.ocrBlockchainTimeout, NodeConfig.ocrContractConfirmations,
    NodeConfig.ocrContractPollInterval, NodeConfig.ocrContractSubscribeInterval,
    NodeConfig.ocrObservationTimeout, hv]

/-- Witness for C1, discharging the override and no-override hypotheses of
every tunable at two concrete specs. -/
theorem localConfig_tunable_overrides_witness :
    (mkLocalConfig exConfig exSpecFull).blockchainTimeout = 11 ∧
    (mkLocalConfig exConfig exSpecFull).contractConfigConfirmations = 4 ∧
    (mkLocalConfig exConfig exSpecFull).contractConfigTrackerPollInterval = 21 ∧
    (mkLocalConfig exConfig exSpecFull).contractConfigTrackerSubscribeInterval = 31 ∧
    (mkLocalConfig exConfig exSpecFull).dataSourceTimeout = 61 ∧
    (mkLocalConfig exConfig exSpecNoOverrides).blockchainTimeout = 10 ∧
    (mkLocalConfig exConfig exSpecNoOverrides).contractConfigConfirmations = 3 ∧
    (mkLocalConfig exConfig exSpecNoOverrides).contractConfigTrackerPollInterval = 20 ∧
    (mkLocalConfig exConfig exSpecNoOverrides).contractConfigTrackerSubscribeInterval = 30 ∧
    (mkLocalConfig exConfig exSpecNoOverrides).dataSourceTimeout = 60 ∧
    (mkLocalConfig exConfig exSpecFull).contractTransmitterTransmitTimeout = 40 ∧
    (mkLocalConfig exConfig exSpecFull).databaseTimeout = 50 := by
  obtain ⟨⟨a1, -⟩, ⟨a2, -⟩, ⟨a3, -⟩, ⟨a4, -⟩, ⟨a5, -⟩, a6, a7⟩ :=
    localConfig_tunable_overrides exConfig exSpecFull
  obtain ⟨⟨-, b1⟩, ⟨-, b2⟩, ⟨-, b3⟩, ⟨-, b4⟩, ⟨-, b5⟩, -, -⟩ :=
    localConfig_tunable_overrides exConfig exSpecNoOverrides
  exact ⟨a1 11 rfl, a2 4 rfl, a3 21 rfl, a4 31 rfl, a5 61 rfl,
    b1 rfl, b2 rfl, b3 rfl, b4 rfl, b5 rfl, a6, a7⟩

/-- C10: `ToDBRow` panics on any spec that is not a value `OracleSpec`
(including a pointer one), while `ServicesForSpec` on a spec that is not a
pointer `OracleSpec` returns an error and no services; on a value
`OracleSpec`, `ToDBRow` is total and returns a row. -/
theorem toDBRow_panics_servicesForSpec_errors :
    (∀ d : Delegate, ∀ t, d.toDBRow (.other t) =
       .panicked ("expected an offchainreporting.OracleSpec, got " ++ t)) ∧
    (∀ d : Delegate, ∀ s, d.toDBRow (.oraclePtr s) =
       .panicked "expected an offchainreporting.OracleSpec, got *offchainreporting.OracleSpec") ∧
    (∀ d : Delegate, ∀ s, ∃ r, d.toDBRow (.oracleVal s) = .row r) ∧
    (∀ d : Delegate, ∀ t, d.servicesForSpec (.other t) = ([], some (.notOracleSpec t))) ∧
    (∀ d : Delegate, ∀ s, d.servicesForSpec (.oracleVal s) =
       ([], some (.notOracleSpec "offchainreporting.OracleSpec"))) := by
  exact ⟨fun d t => rfl, fun d s => rfl, fun d s => ⟨_, rfl⟩, fun d t => rfl, fun d s => rfl⟩

/-- C6: a run completing with the single errorless numeric result "3"
yields the big-integer observation 3 (value coerced to a decimal, then its
integer component taken), and a single errorless value that cannot be
coerced to a number yields a coercion error instead. -/
theorem dataSource_observe_numeric_conversion (ds : DataSource) (runID : Int)
    (h1 : ds.pipelineRunner.createRun = .ok runID)
    (h2 : ds.pipelineRunner.awaitRun runID = none) :
    (ds.pipelineRunner.resultsForRun runID = .ok [{ value := .str "3", error := none }] →
       ds.observe = .ok 3) ∧
    (∀ v, ds.pipelineRunner.resultsForRun runID = .ok [{ value := v, error := none }] →
       toDecimal v = none → ds.observe = .error (.coercion v)) := by
  constructor
  · intro h3
    simp only [DataSource.observe, h1, h2, h3]
    rfl
  · intro v h3 htd
    simp only [DataSource.observe, h1, h2, h3]
    simp [htd]

/-- Witness for C6: the runner fixture terminating with "3" observes 3,
and the non-numeric fixture fails with a coercion error. -/
theorem dataSource_observe_numeric_conversion_witness :
    ({ pipelineRunner := exRunner, jobID := 7 } : DataSource).observe = .ok 3 ∧
    ({ pipelineRunner := exRunnerBad, jobID := 7 } : DataSource).observe =
      .error (.coercion (.str "abc")) := by
  exact ⟨(dataSource_observe_numeric_conversion _ 42 rfl rfl).1 rfl,
    (dataSource_observe_numeric_conversion _ 42 rfl rfl).2 (.str "abc") rfl rfl⟩

/-- C5: a run whose fetched result set has length other than one fails
with the topology error, which is distinct from the coercion error, the
task execution error, and the wrapped pipeline error, and no observation
is produced. -/
theorem dataSource_observe_topology_error (ds : DataSource) (runID : Int)
    (results : List RunResult)
    (h1 : ds.pipelineRunner.createRun = .ok runID)
    (h2 : ds.pipelineRunner.awaitRun runID = none)
    (h3 : ds.pipelineRunner.resultsForRun runID = .ok results)
    (h4 : results.length ≠ 1) :
    ds.observe = .error (.topology ds.jobID runID) ∧
    (∀ v, ObserveError.topology ds.jobID runID ≠ .coercion v) ∧
    (∀ e, ObserveError.topology ds.jobID runID ≠ .taskErrored e) ∧
    (∀ e, ObserveError.topology ds.jobID runID ≠ .pipelineError e) := by
  refine ⟨?_, fun v h => ObserveError.noConfusion h,
    fun e h => ObserveError.noConfusion h, fun e h => ObserveError.noConfusion h⟩
  simp only [DataSource.observe, h1, h2, h3]
  rw [if_pos h4]

/-- Witness for C5: a runner returning two results makes `Observe` fail
with the topology error. -/
theorem dataSource_observe_topology_error_witness :
    ({ pipelineRunner := exRunnerTwo, jobID := 7 } : DataSource).observe =
      .error (.topology 7 42) := by
  exact (dataSource_observe_topology_error _ 42
    [{ value := .str "3", error := none }, { value := .str "4", error := none }]
    rfl rfl rfl (by decide)).1

/-- C2: construction is all-or-nothing: whenever `ServicesForSpec` returns
an error, the returned service list is empty, for every spec and every
behaviour of the external collaborators. -/
theorem servicesForSpec_all_or_nothing (d : Delegate) (spec : JobSpec) (e : OrchError)
    (h : (d.servicesForSpec spec).2 = some e) :
    (d.servicesForSpec spec).1 = [] := by
  have key : (d.servicesForSpec spec).2 ≠ none → (d.servicesForSpec spec).1 = [] := by
    unfold Delegate.servicesForSpec
    dsimp only
    repeat' split
    all_goals intro hne
    all_goals first | rfl | exact absurd rfl hne
  exact key (by simp [h])

/-- Witness for C2: with the peer wrapper missing, `ServicesForSpec`
returns the missing-peer error and the empty service list. -/
theorem servicesForSpec_all_or_nothing_witness :
    (exDelegateNoPeer.servicesForSpec (.oraclePtr exSpecFull)).2 = some .peerMissing ∧
    (exDelegateNoPeer.servicesForSpec (.oraclePtr exSpecFull)).1 = [] :=
  ⟨rfl, servicesForSpec_all_or_nothing exDelegateNoPeer (.oraclePtr exSpecFull) .peerMissing rfl⟩

/-- C4: the two build branches are selected by the bootstrap-only flag:
a successful bootstrap-only build contains a bootstrap protocol-engine
instance wired to the config tracker of the contract and contains no
oracle (hence no contract transmitter and no observation source), while a
successful full-participant build is non-empty and contains an oracle
wired to a contract transmitter and to the observation source of the job. -/
theorem servicesForSpec_branch_shapes (d : Delegate) (s : OracleSpec)
    (services : List Service)
    (h : d.servicesForSpec (.oraclePtr s) = (services, none)) :
    (s.isBootstrapPeer = true →
       (∃ args, Service.bootstrapNode args ∈ services ∧
          args.contractConfigTracker = s.contractAddress) ∧
       (∀ args, Service.oracle args ∉ services)) ∧
    (s.isBootstrapPeer = false →
       services ≠ [] ∧ ∃ args, Service.oracle args ∈ services ∧
         args.contractTransmitter.contractAddress = s.contractAddress ∧
         args.datasourceJobID = s.jobID) := by
  unfold Delegate.servicesForSpec at h
  dsimp only at h
  repeat' split at h
  all_goals injection h with h1 h2
  all_goals (try exact Option.noConfusion h2)
  all_goals subst h1
  all_goals constructor
  all_goals intro hb
  all_goals simp_all

/-- Witness for C4: the all-success delegate builds a transmitter-capable
oracle bundle for the full spec and an oracle-free bootstrap bundle for
the bootstrap spec. -/
theorem servicesForSpec_branch_shapes_witness :
    ((exDelegate.servicesForSpec (.oraclePtr exSpecFull)).1 ≠ [] ∧
      ∃ args, Service.oracle args ∈ (exDelegate.servicesForSpec (.oraclePtr exSpecFull)).1 ∧
        args.contractTransmitter.contractAddress = exSpecFull.contractAddress ∧
        args.datasourceJobID = exSpecFull.jobID) ∧
    ((∃ args,
        Service.bootstrapNode args ∈
          (exDelegate.servicesForSpec (.oraclePtr exSpecBootstrapEmpty)).1 ∧
        args.contractConfigTracker = exSpecBootstrapEmpty.contractAddress) ∧
      ∀ args,
        Service.oracle args ∉ (exDelegate.servicesForSpec (.oraclePtr exSpecBootstrapEmpty)).1) :=
  ⟨(servicesForSpec_branch_shapes exDelegate exSpecFull _ rfl).2 rfl,
    (servicesForSpec_branch_shapes exDelegate exSpecBootstrapEmpty _ rfl).1 rfl⟩

/-- C3: a spec that is not bootstrap-only and whose resolved bootstrap
peer list is empty makes `ServicesForSpec` (with every earlier
construction step succeeding) fail with the prerequisite error naming the
missing bootstrap peer, returning zero services. -/
theorem servicesForSpec_missing_bootstrap_peers (d : Delegate) (s : OracleSpec)
    (pid : String) (w : PeerWrapper) (mon : Option String)
    (hfil : d.newFilterer s.contractAddress = none)
    (hcall : d.newCaller s.contractAddress = none)
    (htr : d.newConfigTracker s.contractAddress = none)
    (hpid : d.config.p2pPeerID s.p2pPeerID = .ok pid)
    (hw : d.peerWrapper = some w)
    (hstarted : w.isStarted = true)
    (hmatch : w.peerID = pid)
    (hmon : d.resolveMonitoringURL s = .ok mon)
    (hsan : d.sanityCheckLocalConfig (mkLocalConfig d.config s) = none)
    (hboot : s.isBootstrapPeer = false)
    (hpeers : d.config.p2pBootstrapPeers s.p2pBootstrapPeers = []) :
    d.servicesForSpec (.oraclePtr s) = ([], some .noBootstrapPeers) ∧
    OrchError.message .noBootstrapPeers = "need at least one bootstrap peer" := by
  refine ⟨?_, rfl⟩
  simp only [Delegate.servicesForSpec, hfil, hcall, htr, hpid, hw, hstarted, hmatch,
    hmon, hsan, hboot, hpeers]
  simp

/-- Witness for C3: the all-success delegate on the full-participant spec
with an empty bootstrap peer list. -/
theorem servicesForSpec_missing_bootstrap_peers_witness :
    exDelegate.servicesForSpec (.oraclePtr exSpecNoPeers) = ([], some .noBootstrapPeers) :=
  (servicesForSpec_missing_bootstrap_peers exDelegate exSpecNoPeers "peerA"
    { peerID := "peerA", isStarted := true } none
    rfl rfl rfl rfl rfl rfl rfl rfl rfl rfl rfl).1

/-- C9 (implicit): the bootstrap-peer non-emptiness check lives only on
the full-participant branch; a bootstrap-only spec whose resolved
bootstrap peer list is empty passes this layer's validation and the empty
list is handed to the bootstrap protocol-engine constructor. -/
theorem servicesForSpec_bootstrap_accepts_empty_peers (d : Delegate) (s : OracleSpec)
    (pid : String) (w : PeerWrapper) (mon : Option String)
    (hfil : d.newFilterer s.contractAddress = none)
    (hcall : d.newCaller s.contractAddress = none)
    (htr : d.newConfigTracker s.contractAddress = none)
    (hpid : d.config.p2pPeerID s.p2pPeerID = .ok pid)
    (hw : d.peerWrapper = some w)
    (hstarted : w.isStarted = true)
    (hmatch : w.peerID = pid)
    (hmon : d.resolveMonitoringURL s = .ok mon)
    (hsan : d.sanityCheckLocalConfig (mkLocalConfig d.config s) = none)
    (hboot : s.isBootstrapPeer = true)
    (hpeers : d.config.p2pBootstrapPeers s.p2pBootstrapPeers = [])
    (hnode : d.newBootstrapNode
      { bootstrapperFactoryPeer := pid
        bootstrappers := []
        contractConfigTracker := s.contractAddress
        databaseSpecID := s.specID
        localConfig := mkLocalConfig d.config s
        monitoringEndpoint := mon } = none) :
    ∃ svcs, d.servicesForSpec (.oraclePtr s) = (svcs, none) ∧
      Service.bootstrapNode
        { bootstrapperFactoryPeer := pid
          bootstrappers := []
          contractConfigTracker := s.contractAddress
          databaseSpecID := s.specID
          localConfig := mkLocalConfig d.config s
          monitoringEndpoint := mon } ∈ svcs := by
  cases mon <;>
    simp_all [Delegate.servicesForSpec, hfil, hcall, htr, hpid, hw, hstarted, hmatch,
      hmon, hsan, hboot, hpeers, hnode]

/-- Witness for C9: the bootstrap-only spec with an empty resolved peer
list builds successfully. -/
theorem servicesForSpec_bootstrap_accepts_empty_peers_witness :
    ∃ svcs, exDelegate.servicesForSpec (.oraclePtr exSpecBootstrapEmpty) = (svcs, none) ∧
      Service.bootstrapNode
        { bootstrapperFactoryPeer := "peerA"
          bootstrappers := []
          contractConfigTracker := exSpecBootstrapEmpty.contractAddress
          databaseSpecID := exSpecBootstrapEmpty.specID
          localConfig := mkLocalConfig exDelegate.config exSpecBootstrapEmpty
          monitoringEndpoint := none } ∈ svcs :=
  servicesForSpec_bootstrap_accepts_empty_peers exDelegate exSpecBootstrapEmpty "peerA"
    { peerID := "peerA", isStarted := true } none
    rfl rfl rfl rfl rfl rfl rfl rfl rfl rfl rfl rfl

/-- C8: monitoring-sink precedence: a non-empty resolved per-job endpoint
is parsed and used; an empty one falls back to the node-wide explorer
URL; and when that yields no endpoint, a successful build simply carries
no monitoring client service (a nil sink is not an error). -/
theorem servicesForSpec_monitoring_precedence (d : Delegate) (s : OracleSpec) :
    (∀ u, d.config.ocrMonitoringEndpoint s.monitoringEndpoint ≠ "" →
       d.parseURL (d.config.ocrMonitoringEndpoint s.monitoringEndpoint) = .ok u →
       d.resolveMonitoringURL s = .ok (some u)) ∧
    (d.config.ocrMonitoringEndpoint s.monitoringEndpoint = "" →
       d.resolveMonitoringURL s = .ok d.config.explorerURL) ∧
    (∀ svcs, d.servicesForSpec (.oraclePtr s) = (svcs, none) →
       d.resolveMonitoringURL s = .ok none →
       ∀ u, Service.explorerClient u ∉ svcs) := by
  refine ⟨fun u hne hp => ?_, fun he => ?_, fun svcs h hmon u => ?_⟩
  · unfold Delegate.resolveMonitoringURL
    dsimp only
    rw [if_pos hne]
    simp only [hp]
  · simp [Delegate.resolveMonitoringURL, he]
  · unfold Delegate.servicesForSpec at h
    dsimp only at h
    repeat' split at h
    all_goals injection h with h1 h2
    all_goals (try exact Option.noConfusion h2)
    all_goals subst h1
    all_goals simp_all

/-- Witness for C8: a per-job endpoint is used when set; with it unset the
node explorer URL (here absent) is used; and the resulting successful
build contains no monitoring client. -/
theorem servicesForSpec_monitoring_precedence_witness :
    exDelegate.resolveMonitoringURL exSpecMon = .ok (some "http://mon.example") ∧
    exDelegate.resolveMonitoringURL exSpecFull = .ok none ∧
    Service.explorerClient "http://mon.example" ∉
      (exDelegate.servicesForSpec (.oraclePtr exSpecFull)).1 :=
  ⟨(servicesForSpec_monitoring_precedence exDelegate exSpecMon).1
      "http://mon.example" (by decide) rfl,
    (servicesForSpec_monitoring_precedence exDelegate exSpecFull).2.1 rfl,
    (servicesForSpec_monitoring_precedence exDelegate exSpecFull).2.2 _ rfl rfl
      "http://mon.example"⟩

/-- C7: the precondition checks run in the stated order, each with its own
fatal error: peer wrapper present, then started, then identity match;
then, on the full-participant branch only, bootstrap peers non-empty, key
bundle resolvable and present in the key store, transmitter address
resolvable; and the seven precondition errors are pairwise distinct. -/
theorem servicesForSpec_precondition_order (d : Delegate) (s : OracleSpec) (pid : String)
    (hfil : d.newFilterer s.contractAddress = none)
    (hcall : d.newCaller s.contractAddress = none)
    (htr : d.newConfigTracker s.contractAddress = none)
    (hpid : d.config.p2pPeerID s.p2pPeerID = .ok pid) :
    (d.peerWrapper = none →
       d.servicesForSpec (.oraclePtr s) = ([], some .peerMissing)) ∧
    (∀ w, d.peerWrapper = some w → w.isStarted = false →
       d.servicesForSpec (.oraclePtr s) = ([], some .peerNotStarted)) ∧
    (∀ w, d.peerWrapper = some w → w.isStarted = true → w.peerID ≠ pid →
       d.servicesForSpec (.oraclePtr s) = ([], some (.peerIDMismatch w.peerID pid))) ∧
    (∀ w mon, d.peerWrapper = some w → w.isStarted = true → w.peerID = pid →
       s.isBootstrapPeer = false →
       d.resolveMonitoringURL s = .ok mon →
       d.sanityCheckLocalConfig (mkLocalConfig d.config s) = none →
       (d.config.p2pBootstrapPeers s.p2pBootstrapPeers = [] →
          d.servicesForSpec (.oraclePtr s) = ([], some .noBootstrapPeers)) ∧
       (0 < (d.config.p2pBootstrapPeers s.p2pBootstrapPeers).length →
          (∀ e, d.config.ocrKeyBundleID s.encryptedOCRKeyBundleID = .error e →
             d.servicesForSpec (.oraclePtr s) = ([], some e)) ∧
          (∀ kb, d.config.ocrKeyBundleID s.encryptedOCRKeyBundleID = .ok kb →
             d.decryptedOCRKey kb = none →
             d.servicesForSpec (.oraclePtr s) =
               ([], some (.keyNotFound s.encryptedOCRKeyBundleID))) ∧
          (∀ kb key, d.config.ocrKeyBundleID s.encryptedOCRKeyBundleID = .ok kb →
             d.decryptedOCRKey kb = some key → d.abiJSON = none →
             ∀ e, d.config.ocrTransmitterAddress s.transmitterAddress = .error e →
               d.servicesForSpec (.oraclePtr s) = ([], some e)))) ∧
    (∀ g ex kb, [OrchError.peerMissing, .peerNotStarted, .peerIDMismatch g ex,
        .noBootstrapPeers, .noKeyBundleID, .keyNotFound kb,
        .noTransmitterAddress].Pairwise (· ≠ ·)) := by
  refine ⟨fun hw => ?_, fun w hw hst => ?_, fun w hw hst hne => ?_,
    fun w mon hw hst hmatch hboot hmon hsan =>
      ⟨fun hpeers => ?_, fun hlen => ⟨fun e hkb => ?_, fun kb hkb hkey => ?_,
        fun kb key hkb hkey habi e hta => ?_⟩⟩,
    fun g ex kb => ?_⟩
  · simp [Delegate.servicesForSpec, hfil, hcall, htr, hpid, hw]
  · simp [Delegate.servicesForSpec, hfil, hcall, htr, hpid, hw, hst]
  · simp [Delegate.servicesForSpec, hfil, hcall, htr, hpid, hw, hst, hne]
  · simp [Delegate.servicesForSpec, hfil, hcall, htr, hpid, hw, hst, hmatch, hboot,
      hmon, hsan, hpeers]
  · simp [Delegate.servicesForSpec, hfil, hcall, htr, hpid, hw, hst, hmatch, hboot,
      hmon, hsan, Nat.not_lt.2 hlen, hkb]
  · simp [Delegate.servicesForSpec, hfil, hcall, htr, hpid, hw, hst, hmatch, hboot,
      hmon, hsan, Nat.not_lt.2 hlen, hkb, hkey]
  · simp [Delegate.servicesForSpec, hfil, hcall, htr, hpid, hw, hst, hmatch, hboot,
      hmon, hsan, Nat.not_lt.2 hlen, hkb, hkey, habi, hta]
  · simp [List.pairwise_cons]

/-- Witness for C7: each precondition failure exercised on a concrete
delegate and spec, yielding its own error and no services. -/
theorem servicesForSpec_precondition_order_witness :
    exDelegateNoPeer.servicesForSpec (.oraclePtr exSpecFull) = ([], some .peerMissing) ∧
    exDelegateNotStarted.servicesForSpec (.oraclePtr exSpecFull) =
      ([], some .peerNotStarted) ∧
    exDelegateWrongPeer.servicesForSpec (.oraclePtr exSpecFull) =
      ([], some (.peerIDMismatch "peerB" "peerA")) ∧
    exDelegate.servicesForSpec (.oraclePtr exSpecNoPeers) =
      ([], some .noBootstrapPeers) ∧
    exDelegate.servicesForSpec (.oraclePtr exSpecBadKey) =
      ([], some (.keyNotFound (some "kb9"))) ∧
    exDelegateNoTA.servicesForSpec (.oraclePtr exSpecNoTA) =
      ([], some .noTransmitterAddress) := by
  refine ⟨?_, ?_, ?_, ?_, ?_, ?_⟩
  · exact (servicesForSpec_precondition_order exDelegateNoPeer exSpecFull "peerA"
      rfl rfl rfl rfl).1 rfl
  · exact (servicesForSpec_precondition_order exDelegateNotStarted exSpecFull "peerA"
      rfl rfl rfl rfl).2.1 { peerID := "peerA", isStarted := false } rfl rfl
  · exact (servicesForSpec_precondition_order exDelegateWrongPeer exSpecFull "peerA"
      rfl rfl rfl rfl).2.2.1 { peerID := "peerB", isStarted := true } rfl rfl (by decide)
  · exact ((servicesForSpec_precondition_order exDelegate exSpecNoPeers "peerA"
      rfl rfl rfl rfl).2.2.2.1 { peerID := "peerA", isStarted := true } none
      rfl rfl rfl rfl rfl rfl).1 rfl
  · exact (((servicesForSpec_precondition_order exDelegate exSpecBadKey "peerA"
      rfl rfl rfl rfl).2.2.2.1 { peerID := "peerA", isStarted := true } none
      rfl rfl rfl rfl rfl rfl).2 (by decide)).2.1 "kb9" rfl rfl
  · exact (((servicesForSpec_precondition_order exDelegateNoTA exSpecNoTA "peerA"
      rfl rfl rfl rfl).2.2.2.1 { peerID := "peerA", isStarted := true } none
      rfl rfl rfl rfl rfl rfl).2 (by decide)).2.2 "kb1" "decryptedKey1" rfl rfl rfl
      .noTransmitterAddress rfl

end OffchainReporting
